import Mathlib

set_option maxRecDepth 4000

/-!
Shallow embedding of the Goodreads ↔ Skoob sync automator
(`sync_to_skoob.py`, `sync_to_goodreads.py`, with the mappings of
`config.py` and the row filter of `etl.py`).

Strings are modelled as `List Char`; Python dicts as association lists;
browser effects as explicit environments whose primitive operations return
`Except Unit _` (an `Except.error` models a raised Playwright exception).
-/

deriving instance DecidableEq for Except

/-- Python `\s` on the ASCII range (the characters the `str.strip()` and the
`re` whitespace class treat as whitespace in the source's patterns). -/
def pySpace (c : Char) : Bool :=
  c = ' ' || c = '\t' || c = '\n' || c = '\r' || c = '\x0b' || c = '\x0c'

/-- Python `str.strip()`: drop whitespace from both ends. -/
def pyStrip (s : List Char) : List Char :=
  ((s.dropWhile pySpace).reverse.dropWhile pySpace).reverse

/-- After the literal `(` of the pattern `\s*\(.*?\)\s*$` of
`_clean_title` (sync_to_skoob.py line 122): holds of `t` when `t` splits as
`m ++ [')'] ++ w` with `m` newline-free (Python `.` does not match a
newline) and `w` all whitespace (the trailing `\s*$`). -/
def closeParen : List Char → Bool
  | [] => false
  | c :: rest =>
    (decide (c = ')') && rest.all pySpace) || (decide (c ≠ '\n') && closeParen rest)

/-- Whether the regex `\s*\(.*?\)\s*$` of `_clean_title` matches starting
exactly at the head of `s` (the `\s*` is forced to take the whole leading
whitespace run, since the next literal is `(`). -/
def matchSuffixAt (s : List Char) : Bool :=
  match s.dropWhile pySpace with
  | '(' :: t => closeParen t
  | _ => false

/-- `re.sub(r"\s*\(.*?\)\s*$", "", title)`: remove from the leftmost
position at which the anchored pattern matches (the match always extends to
the end of the string); the string is unchanged when no position matches. -/
def subParenSuffix : List Char → List Char
  | [] => []
  | c :: rest =>
    if matchSuffixAt (c :: rest) then [] else c :: subParenSuffix rest

/-- Whether the pattern of `_clean_title` matches at some position, i.e.
whether `re.sub` removes anything. -/
def hasTrailingParen : List Char → Bool
  | [] => false
  | c :: rest => matchSuffixAt (c :: rest) || hasTrailingParen rest

/-- sync_to_skoob.py `_clean_title` (lines 118-123):
`cleaned = re.sub(r"\s*\(.*?\)\s*$", "", title).strip()`,
returning `cleaned if cleaned else title`. -/
def clean_title (title : List Char) : List Char :=
  let cleaned := pyStrip (subParenSuffix title)
  if cleaned = [] then title else cleaned

/-- Substring test (Python `needle in haystack`): does `n` occur as a
contiguous segment of `h`? -/
def isStartOf : List Char → List Char → Bool
  | [], _ => true
  | _ :: _, [] => false
  | a :: as, b :: bs => decide (a = b) && isStartOf as bs

/-- Python `n in h` for strings. -/
def strIn (n h : List Char) : Bool :=
  match h with
  | [] => isStartOf n []
  | _ :: rest => isStartOf n h || strIn n rest

/-- sync_to_skoob.py `_search_and_open_book` (lines 99-105): the ordered
query list — the trimmed ISBN when non-empty (Python truthiness of
`isbn.strip()`), then cleaned-title + `" "` + author, then cleaned title. -/
def buildQueries (isbn title author : List Char) : List (List Char) :=
  (if pyStrip isbn = [] then [] else [pyStrip isbn]) ++
    [clean_title title ++ ' ' :: author, clean_title title]

/-- Whether an attempt outcome is a plain miss (`return False` without an
exception); used to characterise how far the cascade advances. -/
def isOkFalse : Except Unit Bool → Bool
  | .ok false => true
  | _ => false

/-- sync_to_skoob.py `_search_and_open_book` (lines 107-115): the `for`
loop over the query list, returning at the first query for which
`_search_via_dropdown` returns `True`, and letting an exception raised by
an attempt propagate.  The second component is ghost instrumentation: the
list of queries actually handed to `_search_via_dropdown`, in order. -/
def attemptQueries (f : List Char → Except Unit Bool) :
    List (List Char) → Except Unit Bool × List (List Char)
  | [] => (.ok false, [])
  | q :: qs =>
    match f q with
    | .ok true => (.ok true, [q])
    | .ok false =>
      let r := attemptQueries f qs
      (r.1, q :: r.2)
    | .error e => (.error e, [q])

/-- sync_to_skoob.py `_search_and_open_book` (lines 86-115), parameterised
by the behaviour `f` of `_search_via_dropdown` on this page.  First
component: the source function's return value (or the exception it lets
through); second: the ghost trace of issued queries. -/
def search_and_open_book (f : List Char → Except Unit Bool)
    (isbn title author : List Char) : Except Unit Bool × List (List Char) :=
  attemptQueries f (buildQueries isbn title author)

/-- Abstract Playwright page: each primitive browser call either returns a
value (`.ok`) or raises (`.error`).  `urlAfter q` is the value of the
(non-raising) `page.url` property once the dropdown result reached after
typing `q` has been clicked. -/
structure PageModel where
  goto : Except Unit Unit
  waitTimeout : Nat → Except Unit Unit
  locCount : List Char → Except Unit Nat
  locFirstVisible : List Char → Except Unit Bool
  roleSearchboxCount : Except Unit Nat
  inputClick : Except Unit Unit
  inputFill : Except Unit Unit
  inputType : List Char → Except Unit Unit
  waitLoadState : Except Unit Unit
  nthVisible : List Char → Nat → Except Unit Bool
  nthClick : List Char → Nat → Except Unit Unit
  livroCount : Except Unit Nat
  linkHref : Nat → Except Unit (Option (List Char))
  linkVisible : Nat → Except Unit Bool
  linkBoxY : Nat → Except Unit (Option Int)
  linkClick : Nat → Except Unit Unit
  urlAfter : List Char → List Char

/-- The selector list of `_find_search_input` (sync_to_skoob.py 167-179). -/
def searchSelectors : List (List Char) :=
  ["input[type=\x27search\x27]".toList,
   "input[name=\x27search\x27]".toList,
   "input[name=\x27q\x27]".toList,
   "input[placeholder*=\x27uscar\x27]".toList,
   "input[placeholder*=\x27esquis\x27]".toList,
   "input[placeholder*=\x27ivro\x27]".toList,
   "#search".toList,
   ".search-input".toList,
   "header input[type=\x27text\x27]".toList,
   "nav input[type=\x27text\x27]".toList,
   "input[type=\x27text\x27]".toList]

/-- Tag standing for `page.get_by_role("searchbox").first`. -/
def roleSearchboxSel : List Char := "role=searchbox".toList

/-- Body of one `try:` block of `_find_search_input` (lines 182-186):
`loc.count() > 0 and loc.first.is_visible()` with short-circuiting; either
call may raise. -/
def probeSelector (pg : PageModel) (sel : List Char) : Except Unit Bool :=
  match pg.locCount sel with
  | .error e => .error e
  | .ok c =>
    if c > 0 then
      match pg.locFirstVisible sel with
      | .error e => .error e
      | .ok v => .ok v
    else .ok false

/-- The selector loop of `_find_search_input` (lines 181-198) followed by
the `get_by_role("searchbox")` fallback: a raising probe is swallowed
(`except Exception: continue` / `pass`). -/
def findInputLoop (pg : PageModel) : List (List Char) → Except Unit (Option (List Char))
  | [] =>
    match pg.roleSearchboxCount with
    | .error _ => .ok none
    | .ok c => .ok (if c > 0 then some roleSearchboxSel else none)
  | sel :: rest =>
    match probeSelector pg sel with
    | .error _ => findInputLoop pg rest
    | .ok true => .ok (some sel)
    | .ok false => findInputLoop pg rest

/-- sync_to_skoob.py `_find_search_input` (lines 165-198). -/
def find_search_input (pg : PageModel) : Except Unit (Option (List Char)) :=
  findInputLoop pg searchSelectors

/-- The dropdown selector list of `_click_dropdown_result` (lines 209-224). -/
def dropdownSelectors : List (List Char) :=
  [".dropdown-menu a[href*=\x27/livro/\x27]".toList,
   ".autocomplete a[href*=\x27/livro/\x27]".toList,
   ".search-results a[href*=\x27/livro/\x27]".toList,
   ".suggestions a[href*=\x27/livro/\x27]".toList,
   "a[href*=\x27/livro/\x27]:not(nav a):not(header a):not(footer a)".toList,
   ".dropdown-item".toList,
   ".autocomplete-item".toList,
   ".suggestion-item".toList,
   ".livro-capa".toList,
   ".box_livro a".toList]

/-- The inner `for i in range(min(count, 3))` of `_click_dropdown_result`
(lines 232-237): click the first visible item. -/
def clickItems (pg : PageModel) (sel : List Char) : List Nat → Except Unit Bool
  | [] => .ok false
  | i :: rest =>
    match pg.nthVisible sel i with
    | .error e => .error e
    | .ok true =>
      match pg.nthClick sel i with
      | .error e => .error e
      | .ok _ => .ok true
    | .ok false => clickItems pg sel rest

/-- Body of one `try:` block of the dropdown loop (lines 227-237). -/
def probeDropdown (pg : PageModel) (sel : List Char) : Except Unit Bool :=
  match pg.locCount sel with
  | .error e => .error e
  | .ok c => if c > 0 then clickItems pg sel (List.range (min c 3)) else .ok false

/-- The `for i in range(count)` of the `/livro/`-link fallback
(lines 246-258): skip `/lista/` and `/resenhas/` hrefs, click the first
visible link whose bounding-box `y` exceeds 80. -/
def fallbackLoop (pg : PageModel) : List Nat → Except Unit Bool
  | [] => .ok false
  | i :: rest =>
    match pg.linkHref i with
    | .error e => .error e
    | .ok hrefOpt =>
      if strIn "/lista/".toList (hrefOpt.getD []) ||
          strIn "/resenhas/".toList (hrefOpt.getD []) then
        fallbackLoop pg rest
      else
        match pg.linkVisible i with
        | .error e => .error e
        | .ok false => fallbackLoop pg rest
        | .ok true =>
          match pg.linkBoxY i with
          | .error e => .error e
          | .ok none => fallbackLoop pg rest
          | .ok (some y) =>
            if y > 80 then
              match pg.linkClick i with
              | .error e => .error e
              | .ok _ => .ok true
            else fallbackLoop pg rest

/-- The guarded `/livro/`-link fallback of `_click_dropdown_result`
(lines 241-260): any exception inside the block yields `except: pass`
followed by `return False`. -/
def fallbackLivro (pg : PageModel) : Except Unit Bool :=
  match pg.livroCount with
  | .error _ => .ok false
  | .ok c =>
    match fallbackLoop pg (List.range c) with
    | .error _ => .ok false
    | .ok b => .ok b

/-- The dropdown selector loop of `_click_dropdown_result` (lines 226-239):
a raising probe is swallowed and the loop continues; exhaustion falls
through to the `/livro/`-link fallback. -/
def clickDropdownLoop (pg : PageModel) : List (List Char) → Except Unit Bool
  | [] => fallbackLivro pg
  | sel :: rest =>
    match probeDropdown pg sel with
    | .error _ => clickDropdownLoop pg rest
    | .ok true => .ok true
    | .ok false => clickDropdownLoop pg rest

/-- sync_to_skoob.py `_click_dropdown_result` (lines 201-262). -/
def click_dropdown_result (pg : PageModel) : Except Unit Bool :=
  clickDropdownLoop pg dropdownSelectors

/-- sync_to_skoob.py `_search_via_dropdown` (lines 126-162): navigation,
typing and waiting are NOT wrapped in any `try:` — an exception from them
propagates.  Success means the final `page.url` contains `/livro/`. -/
def search_via_dropdown (pg : PageModel) (query : List Char) : Except Unit Bool :=
  match pg.goto with
  | .error e => .error e
  | .ok _ =>
    match pg.waitTimeout 2000 with
    | .error e => .error e
    | .ok _ =>
      match find_search_input pg with
      | .error e => .error e
      | .ok none => .ok false
      | .ok (some _) =>
        match pg.inputClick with
        | .error e => .error e
        | .ok _ =>
          match pg.inputFill with
          | .error e => .error e
          | .ok _ =>
            match pg.inputType query with
            | .error e => .error e
            | .ok _ =>
              match pg.waitTimeout 2500 with
              | .error e => .error e
              | .ok _ =>
                match click_dropdown_result pg with
                | .error e => .error e
                | .ok false => .ok false
                | .ok true =>
                  match pg.waitLoadState with
                  | .error e => .error e
                  | .ok _ =>
                    match pg.waitTimeout 1500 with
                    | .error e => .error e
                    | .ok _ =>
                      if strIn "/livro/".toList (pg.urlAfter query) then .ok true
                      else .ok false

/-- `_search_and_open_book` run against a concrete page model: the
cascade's `_search_via_dropdown` calls hit the browser. -/
def search_and_open_book_pg (pg : PageModel) (isbn title author : List Char) :
    Except Unit Bool × List (List Char) :=
  search_and_open_book (search_via_dropdown pg) isbn title author

/-- Whether an `Except`-valued call returned normally. -/
def exOk {α : Type} : Except Unit α → Bool
  | .ok _ => true
  | .error _ => false

/-- config.py `GOODREADS_TO_SKOOB_SHELF` (lines 22-26): only `read` is
mapped; the other entries are commented out in the source. -/
def GOODREADS_TO_SKOOB_SHELF : List (List Char × List Char) :=
  [("read".toList, "Lido".toList)]

/-- config.py `SKOOB_STATUS_IDS` (lines 29-35). -/
def SKOOB_STATUS_IDS : List (Nat × List Char) :=
  [(1, "Lido".toList), (2, "Lendo".toList), (3, "Quero Ler".toList),
   (5, "Abandonei".toList), (6, "Relendo".toList)]

/-- config.py `SKOOB_TO_GOODREADS_SHELF` (lines 38-42). -/
def SKOOB_TO_GOODREADS_SHELF : List (List Char × List Char) :=
  [("Lido".toList, "read".toList), ("Lendo".toList, "currently-reading".toList),
   ("Quero Ler".toList, "to-read".toList)]

/-- Python `dict.get(k)`: `some` of the mapped value, else `none`. -/
def dictGet (m : List (List Char × List Char)) (k : List Char) : Option (List Char) :=
  (m.find? (fun p => decide (p.1 = k))).map (fun p => p.2)

/-- One row of the Goodreads export, as read by `run` in sync_to_skoob.py
(lines 42-45): title, author, sanitised ISBN, exclusive shelf. -/
structure Row where
  title : List Char
  author : List Char
  isbn : List Char
  shelf : List Char
deriving DecidableEq

/-- Outcomes of the two per-record collaborators of the outbound `run`:
`_search_and_open_book` (which may raise) and `_set_status` (which
swallows its own exceptions and returns a Bool). -/
structure SyncOps where
  locate : Row → Except Unit Bool
  setStatus : Row → List Char → Bool

/-- Observable actions of the outbound `run` loop, in order: a Locate
invocation, a Status-Set invocation (with its result), a jitter sleep. -/
inductive Ev where
  | locate (r : Row)
  | setStat (r : Row) (ok : Bool)
  | jitter
deriving DecidableEq

/-- sync_to_skoob.py `run` (lines 31-79): for each row look up the shelf in
`GOODREADS_TO_SKOOB_SHELF` and skip on a falsy target (`if not
target_status: continue`); locate; on a miss append to `failed` and
`continue` (skipping the jitter); on a hit set the status (a `False`
result is only logged); an exception is caught, the row appended to
`failed`, and the jitter still runs.  Returns the event trace and the
`failed` list. -/
def runToSkoob (ops : SyncOps) : List Row → List Ev × List Row
  | [] => ([], [])
  | r :: rest =>
    let res := runToSkoob ops rest
    match dictGet GOODREADS_TO_SKOOB_SHELF r.shelf with
    | none => res
    | some t =>
      if t = [] then res
      else
        match ops.locate r with
        | .error _ => (Ev.locate r :: Ev.jitter :: res.1, r :: res.2)
        | .ok false => (Ev.locate r :: res.1, r :: res.2)
        | .ok true =>
          (Ev.locate r :: Ev.setStat r (ops.setStatus r t) :: Ev.jitter :: res.1, res.2)

/-- etl.py `load_goodreads_csv` (lines 46-47): keep only the rows whose
`Exclusive Shelf` is a key of `GOODREADS_TO_SKOOB_SHELF`. -/
def filterRelevant (rows : List Row) : List Row :=
  rows.filter (fun r => decide (r.shelf ∈ GOODREADS_TO_SKOOB_SHELF.map Prod.fst))

/-- Whether the outbound `run` processes a row: its shelf maps to a
non-empty (truthy) Skoob status. -/
def isMappedRow (r : Row) : Bool :=
  match dictGet GOODREADS_TO_SKOOB_SHELF r.shelf with
  | none => false
  | some t => decide (t ≠ [])

/-- Whether a locate outcome lands the row in the `failed` list: a plain
miss or a raised exception. -/
def locFailed : Except Unit Bool → Bool
  | .ok true => false
  | _ => true

/-- Result of the inbound `run` of sync_to_goodreads.py: abort for a
missing user id, an export handed to `generate_goodreads_csv`, or the
"no books found" signal. -/
inductive InOutcome (β : Type) where
  | noUser
  | exported (books : List β)
  | nothingFound
deriving DecidableEq

/-- sync_to_goodreads.py `run` (lines 44-52): the loop over
`SKOOB_STATUS_IDS`, skipping labels with a falsy Goodreads mapping and
draining `_scrape_shelf` (abstracted as `f sid label gshelf`) into the
combined list.  Also returns the trace of shelves actually scraped. -/
def inboundLoop {β : Type} (f : Nat → List Char → List Char → List β) :
    List (Nat × List Char) → List β × List (Nat × List Char)
  | [] => ([], [])
  | (sid, lab) :: rest =>
    let res := inboundLoop f rest
    match dictGet SKOOB_TO_GOODREADS_SHELF lab with
    | none => res
    | some g =>
      if g = [] then res
      else (f sid lab g ++ res.1, (sid, lab) :: res.2)

/-- sync_to_goodreads.py `run` (lines 29-57): empty `user_id` aborts before
any scraping; otherwise every mapped shelf is scraped and the export
generator is invoked exactly when the combined list is non-empty. -/
def runToGoodreads {β : Type} (f : Nat → List Char → List Char → List β)
    (uid : List Char) : InOutcome β × List (Nat × List Char) :=
  if uid = [] then (InOutcome.noUser, [])
  else
    let res := inboundLoop f SKOOB_STATUS_IDS
    (if res.1.isEmpty then InOutcome.nothingFound else InOutcome.exported res.1, res.2)

/-- Remote shelf as seen by `_scrape_shelf` (sync_to_goodreads.py 64-113):
`cards p` is the list of `.box_livro` cards on page `p` (each `some` an
extracted book, `none` a card on which `_extract_book_from_card` fails and
returns `None`); `hasNext p` is whether a next-page link is found there. -/
structure ShelfEnv (β : Type) where
  cards : Nat → List (Option β)
  hasNext : Nat → Bool

/-- sync_to_goodreads.py `_scrape_shelf` (lines 74-113): the `while True`
loop from page `p` with explicit fuel.  `some (books, n)` means the loop
broke after loading `n` pages, collecting `books`; `none` means the fuel
ran out before a break. -/
def scrapeShelfAux {β : Type} (env : ShelfEnv β) :
    Nat → Nat → Option (List β × Nat)
  | 0, _ => none
  | fuel + 1, p =>
    let cs := env.cards p
    if cs.length = 0 then some ([], 1)
    else if env.hasNext p = false then some (cs.filterMap id, 1)
    else
      match scrapeShelfAux env fuel (p + 1) with
      | none => none
      | some (bs, n) => some (cs.filterMap id ++ bs, n + 1)

/-- Modelled from the spec: the repository's alternate revision of the
shelf reader uses the `v1/bookcase` JSON endpoint (declared as
`SKOOB_V1_BOOKCASE_URL` in config.py but with no caller under src/);
`parse p` is the parsed page `p` — `none` a parse failure, otherwise the
item list (per-item extraction may fail) and the declared total page
count. -/
structure V1Env (β : Type) where
  parse : Nat → Option (List (Option β) × Nat)

/-- Modelled from the spec (§4.3 Shelf Paginator): request page `p`; stop
on a parse failure or an empty item list; otherwise collect the usable
items and stop once the declared total-page-count is reached, else advance
to the next page.  Fuel-indexed as above. -/
def v1Aux {β : Type} (env : V1Env β) : Nat → Nat → Option (List β × Nat)
  | 0, _ => none
  | fuel + 1, p =>
    match env.parse p with
    | none => some ([], 1)
    | some (items, total) =>
      if items.isEmpty then some ([], 1)
      else if total ≤ p then some (items.filterMap id, 1)
      else
        match v1Aux env fuel (p + 1) with
        | none => none
        | some (bs, n) => some (items.filterMap id ++ bs, n + 1)

/-- A page model on which every probe is quiet and no call raises. -/
def pgGood : PageModel where
  goto := .ok ()
  waitTimeout := fun _ => .ok ()
  locCount := fun _ => .ok 0
  locFirstVisible := fun _ => .ok false
  roleSearchboxCount := .ok 0
  inputClick := .ok ()
  inputFill := .ok ()
  inputType := fun _ => .ok ()
  waitLoadState := .ok ()
  nthVisible := fun _ _ => .ok false
  nthClick := fun _ _ => .ok ()
  livroCount := .ok 0
  linkHref := fun _ => .ok none
  linkVisible := fun _ => .ok false
  linkBoxY := fun _ => .ok none
  linkClick := fun _ => .ok ()
  urlAfter := fun _ => []

/-- `pgGood` with a raising `page.goto` (e.g. a navigation timeout). -/
def pgBad : PageModel :=
  { pgGood with goto := .error () }

/-- Search behaviour that hits exactly on the query `1`. -/
def fIsbnHit : List Char → Except Unit Bool :=
  fun q => if q = ['1'] then .ok true else .ok false

/-- Search behaviour that misses on every query. -/
def fAllMiss : List Char → Except Unit Bool := fun _ => .ok false

/-- A row whose shelf is not a key of `GOODREADS_TO_SKOOB_SHELF`. -/
def rowUnmapped : Row :=
  { title := "T".toList, author := "A".toList, isbn := [], shelf := "to-read".toList }

/-- A row on the mapped `read` shelf. -/
def rowRead : Row :=
  { title := "T".toList, author := "A".toList, isbn := [], shelf := "read".toList }

/-- A second `read` row, distinguishable by its title. -/
def rowRead2 : Row :=
  { title := "U".toList, author := "B".toList, isbn := [], shelf := "read".toList }

/-- Locate succeeds everywhere, status-set succeeds everywhere. -/
def opsAllOk : SyncOps where
  locate := fun _ => .ok true
  setStatus := fun _ _ => true

/-- Locate succeeds everywhere but status-set always reports failure. -/
def opsSetFails : SyncOps where
  locate := fun _ => .ok true
  setStatus := fun _ _ => false

/-- Locate misses on `rowRead` and succeeds elsewhere. -/
def opsMissFirst : SyncOps where
  locate := fun r => .ok (decide (r.title ≠ "T".toList))
  setStatus := fun _ _ => true

/-- Scrape behaviour returning the shelf's numeric status id as its only
book. -/
def scrapeIds : Nat → List Char → List Char → List Nat :=
  fun sid _ _ => [sid]

/-- A shelf whose page 1 is empty. -/
def envEmpty : ShelfEnv Nat where
  cards := fun _ => []
  hasNext := fun _ => true

/-- A shelf with one full page, an empty page 2, and a next-page link on
every page. -/
def envOneFull : ShelfEnv Nat where
  cards := fun p => if p = 1 then [some 0] else []
  hasNext := fun _ => true

/-- A v1 bookcase endpoint declaring 3 total pages, every page non-empty
(even past the declared count). -/
def envV1 : V1Env Nat where
  parse := fun _ => some ([some 0], 3)

/-- When the pattern matches nowhere, `re.sub` leaves the title intact. -/
theorem subParenSuffix_of_no_match :
    ∀ t : List Char, hasTrailingParen t = false → subParenSuffix t = t := by
  intro t h
  induction t with
  | nil => rfl
  | cons c rest ih =>
    rw [hasTrailingParen] at h
    rcases Bool.or_eq_false_iff.mp h with ⟨h1, h2⟩
    rw [subParenSuffix, if_neg (by simp [h1]), ih h2]

/-- `re.sub` removes everything from the leftmost matching position. -/
theorem subParenSuffix_of_match :
    ∀ (t : List Char) (i : Nat), matchSuffixAt (t.drop i) = true →
      (∀ j, j < i → matchSuffixAt (t.drop j) = false) →
      subParenSuffix t = t.take i := by
  intro t
  induction t with
  | nil =>
    intro i hm _
    simp [List.drop_nil] at hm
    simp [matchSuffixAt] at hm
  | cons c rest ih =>
    intro i hm hbelow
    cases i with
    | zero =>
      rw [List.drop_zero] at hm
      rw [subParenSuffix, if_pos hm, List.take_zero]
    | succ k =>
      have h0 : matchSuffixAt (c :: rest) = false := by
        have := hbelow 0 (Nat.succ_pos k)
        simpa using this
      have hm' : matchSuffixAt (rest.drop k) = true := by
        simpa [List.drop_succ_cons] using hm
      have hbelow' : ∀ j, j < k → matchSuffixAt (rest.drop j) = false := by
        intro j hj
        have := hbelow (j + 1) (Nat.succ_lt_succ hj)
        simpa [List.drop_succ_cons] using this
      rw [subParenSuffix, if_neg (by simp [h0]), ih k hm' hbelow', List.take_succ_cons]

/-- The `for` loop of `_search_and_open_book`: the outcome is that of the
first query whose attempt is not a plain miss (or a miss if there is
none), and exactly the queries up to and including that one are issued. -/
theorem attemptQueries_eq (f : List Char → Except Unit Bool) :
    ∀ qs : List (List Char),
      attemptQueries f qs =
        ((match qs.dropWhile (fun q => isOkFalse (f q)) with
          | [] => Except.ok false
          | q :: _ => f q),
         qs.takeWhile (fun q => isOkFalse (f q)) ++
           (qs.dropWhile (fun q => isOkFalse (f q))).take 1) := by
  intro qs
  induction qs with
  | nil => rfl
  | cons q qs ih =>
    cases hfq : f q with
    | ok b =>
      cases b with
      | true =>
        simp [attemptQueries, hfq, List.dropWhile_cons, List.takeWhile_cons, isOkFalse]
      | false =>
        simp [attemptQueries, hfq, List.dropWhile_cons, List.takeWhile_cons, isOkFalse, ih]
    | error e =>
      simp [attemptQueries, hfq, List.dropWhile_cons, List.takeWhile_cons, isOkFalse]

/-- Event-trace characterisation of the outbound `run` loop: each row
contributes its own block of events — nothing for an unmapped shelf,
`[locate]` alone for a locate miss (the `continue` skips the jitter),
`[locate, jitter]` for a caught exception, and
`[locate, setStat, jitter]` for a located row whatever `_set_status`
returns. -/
theorem runToSkoob_trace (ops : SyncOps) :
    ∀ rows : List Row,
      (runToSkoob ops rows).1 =
        rows.flatMap (fun r =>
          match dictGet GOODREADS_TO_SKOOB_SHELF r.shelf with
          | none => []
          | some t =>
            if t = [] then []
            else
              match ops.locate r with
              | .error _ => [Ev.locate r, Ev.jitter]
              | .ok false => [Ev.locate r]
              | .ok true => [Ev.locate r, Ev.setStat r (ops.setStatus r t), Ev.jitter]) := by
  intro rows
  induction rows with
  | nil => rfl
  | cons r rest ih =>
    rw [runToSkoob, List.flatMap_cons]
    cases hg : dictGet GOODREADS_TO_SKOOB_SHELF r.shelf with
    | none => simpa [hg] using ih
    | some t =>
      by_cases ht : t = []
      · simpa [hg, ht] using ih
      · cases hl : ops.locate r with
        | ok b => cases b <;> simp [hg, ht, hl, ih]
        | error e => simp [hg, ht, hl, ih]

/-- Failure-list characterisation of the outbound `run` loop: the `failed`
list holds exactly the mapped rows whose locate attempt missed or raised;
in particular a `False` from `_set_status` never adds a row. -/
theorem runToSkoob_failed (ops : SyncOps) :
    ∀ rows : List Row,
      (runToSkoob ops rows).2 =
        rows.filter (fun r => isMappedRow r && locFailed (ops.locate r)) := by
  intro rows
  induction rows with
  | nil => rfl
  | cons r rest ih =>
    rw [runToSkoob, List.filter_cons]
    cases hg : dictGet GOODREADS_TO_SKOOB_SHELF r.shelf with
    | none => simpa [isMappedRow, hg] using ih
    | some t =>
      by_cases ht : t = []
      · simpa [isMappedRow, hg, ht] using ih
      · cases hl : ops.locate r with
        | ok b => cases b <;> simp [isMappedRow, locFailed, hg, ht, hl, ih]
        | error e => simp [isMappedRow, locFailed, hg, ht, hl, ih]

/-- Every shelf the inbound loop scrapes has a (truthy) Goodreads mapping. -/
theorem inboundLoop_scraped_mapped {β : Type} (f : Nat → List Char → List Char → List β) :
    ∀ (l : List (Nat × List Char)) (sid : Nat) (lab : List Char),
      (sid, lab) ∈ (inboundLoop f l).2 →
      dictGet SKOOB_TO_GOODREADS_SHELF lab ≠ none := by
  intro l
  induction l with
  | nil => intro sid lab h; simp [inboundLoop] at h
  | cons e rest ih =>
    intro sid lab h
    obtain ⟨s, lb⟩ := e
    cases hg : dictGet SKOOB_TO_GOODREADS_SHELF lb with
    | none =>
      simp only [inboundLoop, hg] at h
      exact ih sid lab h
    | some g =>
      by_cases hgE : g = []
      · simp only [inboundLoop, hg, hgE, if_true] at h
        exact ih sid lab h
      · simp only [inboundLoop, hg, if_neg hgE, List.mem_cons] at h
        rcases h with heq | hmem
        · obtain ⟨rfl, rfl⟩ := Prod.mk.inj heq
          simp [hg]
        · exact ih sid lab hmem

/-- The combined inbound book list is the concatenation of the scrapes of
the mapped shelves, in shelf order. -/
theorem inboundLoop_books {β : Type} (f : Nat → List Char → List Char → List β) :
    (inboundLoop f SKOOB_STATUS_IDS).1 =
      f 1 "Lido".toList "read".toList ++
        (f 2 "Lendo".toList "currently-reading".toList ++
          f 3 "Quero Ler".toList "to-read".toList) := by
  simp [inboundLoop, SKOOB_STATUS_IDS, SKOOB_TO_GOODREADS_SHELF, dictGet, List.find?]

/-- A key present in an association list is found by `dictGet`. -/
theorem dictGet_of_mem_keys :
    ∀ (m : List (List Char × List Char)) (k : List Char),
      k ∈ m.map Prod.fst → dictGet m k ≠ none := by
  intro m
  induction m with
  | nil => intro k h; simp at h
  | cons e rest ih =>
    intro k h
    rw [List.map_cons, List.mem_cons] at h
    by_cases hk : e.1 = k
    · simp [dictGet, List.find?, hk]
    · rcases h with heq | hmem
      · exact absurd heq.symm hk
      · have := ih k hmem
        simpa [dictGet, List.find?, hk] using this

/-- Termination of the shelf loop: if some page at offset `j` from the
current one is empty or lacks a next-page link, fuel `j + 1` (or more)
suffices for the loop to break. -/
theorem scrapeShelfAux_terminates {β : Type} (env : ShelfEnv β) :
    ∀ (j p fuel : Nat),
      (env.cards (p + j) = [] ∨ env.hasNext (p + j) = false) → j < fuel →
      (scrapeShelfAux env fuel p).isSome = true := by
  intro j
  induction j with
  | zero =>
    intro p fuel hstop hfuel
    obtain ⟨f, rfl⟩ : ∃ f, fuel = f + 1 :=
      ⟨fuel - 1, (Nat.succ_pred_eq_of_pos hfuel).symm⟩
    rw [Nat.add_zero] at hstop
    rcases hstop with hc | hn
    · simp [scrapeShelfAux, hc]
    · rw [scrapeShelfAux]
      by_cases hc : (env.cards p).length = 0
      · simp [hc]
      · simp [hc, hn]
  | succ k ih =>
    intro p fuel hstop hfuel
    obtain ⟨f, rfl⟩ : ∃ f, fuel = f + 1 :=
      ⟨fuel - 1, (Nat.succ_pred_eq_of_pos (Nat.lt_of_le_of_lt (Nat.zero_le _) hfuel)).symm⟩
    rw [scrapeShelfAux]
    by_cases hc : (env.cards p).length = 0
    · simp [hc]
    · by_cases hn : env.hasNext p = false
      · simp [hc, hn]
      · have hrec : (scrapeShelfAux env f (p + 1)).isSome = true := by
          apply ih (p + 1) f
          · have : p + 1 + k = p + (k + 1) := by omega
            rw [this]
            exact hstop
          · omega
        obtain ⟨r, hr⟩ := Option.isSome_iff_exists.mp hrec
        simp [hc, hn, hr]

/-- Exact page-load count of the shelf loop: with every page showing a
next-page link, pages `p, …, p + d - 1` non-empty and page `p + d` empty,
the loop loads exactly `d + 1` pages (the empty one included). -/
theorem scrapeShelfAux_count {β : Type} (env : ShelfEnv β) :
    ∀ (d p fuel : Nat),
      (∀ i, i < d → env.cards (p + i) ≠ []) → env.cards (p + d) = [] →
      (∀ q, env.hasNext q = true) → d < fuel →
      (scrapeShelfAux env fuel p).map (fun x => x.2) = some (d + 1) := by
  intro d
  induction d with
  | zero =>
    intro p fuel _ hempty _ hfuel
    obtain ⟨f, rfl⟩ : ∃ f, fuel = f + 1 :=
      ⟨fuel - 1, (Nat.succ_pred_eq_of_pos hfuel).symm⟩
    rw [Nat.add_zero] at hempty
    simp [scrapeShelfAux, hempty]
  | succ k ih =>
    intro p fuel hfull hempty hnext hfuel
    obtain ⟨f, rfl⟩ : ∃ f, fuel = f + 1 :=
      ⟨fuel - 1, (Nat.succ_pred_eq_of_pos (Nat.lt_of_le_of_lt (Nat.zero_le _) hfuel)).symm⟩
    have hp : env.cards p ≠ [] := by
      have := hfull 0 (Nat.succ_pos k)
      simpa using this
    have hrec : (scrapeShelfAux env f (p + 1)).map (fun x => x.2) = some (k + 1) := by
      apply ih (p + 1) f
      · intro i hi
        have : p + 1 + i = p + (i + 1) := by omega
        rw [this]
        exact hfull (i + 1) (by omega)
      · have : p + 1 + k = p + (k + 1) := by omega
        rw [this]
        exact hempty
      · exact hnext
      · omega
    obtain ⟨r, hr⟩ : ∃ r, scrapeShelfAux env f (p + 1) = some r := by
      cases hx : scrapeShelfAux env f (p + 1) with
      | none => rw [hx] at hrec; simp at hrec
      | some r => exact ⟨r, rfl⟩
    have hr2 : r.2 = k + 1 := by
      rw [hr] at hrec
      simpa using hrec
    have hlen : ¬(env.cards p).length = 0 := by
      simpa [List.length_eq_zero] using hp
    obtain ⟨bs, n⟩ := r
    simp only at hr2
    subst hr2
    simp [scrapeShelfAux, hlen, hnext p, hr]

/-- Stop-at-declared-count for the spec-modelled v1 paginator: when every
page parses with the same declared total `p + d` and a non-empty item
list, the loop starting at page `p` performs exactly `d + 1` requests —
the page after the declared total is never requested even though it has
content. -/
theorem v1Aux_count {β : Type} (env : V1Env β) (it : Nat → List (Option β)) :
    ∀ (d p fuel : Nat),
      (∀ q, env.parse q = some (it q, p + d)) → (∀ q, it q ≠ []) →
      d < fuel →
      (v1Aux env fuel p).map (fun x => x.2) = some (d + 1) := by
  intro d
  induction d with
  | zero =>
    intro p fuel hparse hfull hfuel
    obtain ⟨f, rfl⟩ : ∃ f, fuel = f + 1 :=
      ⟨fuel - 1, (Nat.succ_pred_eq_of_pos hfuel).symm⟩
    have hne : (it p).isEmpty = false := by
      simpa [List.isEmpty_iff] using hfull p
    simp [v1Aux, hparse p, hne]
  | succ k ih =>
    intro p fuel hparse hfull hfuel
    obtain ⟨f, rfl⟩ : ∃ f, fuel = f + 1 :=
      ⟨fuel - 1, (Nat.succ_pred_eq_of_pos (Nat.lt_of_le_of_lt (Nat.zero_le _) hfuel)).symm⟩
    have hne : (it p).isEmpty = false := by
      simpa [List.isEmpty_iff] using hfull p
    have hrec : (v1Aux env f (p + 1)).map (fun x => x.2) = some (k + 1) := by
      apply ih (p + 1) f
      · intro q
        have : p + 1 + k = p + (k + 1) := by omega
        rw [this]
        exact hparse q
      · exact hfull
      · omega
    obtain ⟨r, hr⟩ : ∃ r, v1Aux env f (p + 1) = some r := by
      cases hx : v1Aux env f (p + 1) with
      | none => rw [hx] at hrec; simp at hrec
      | some r => exact ⟨r, rfl⟩
    have hr2 : r.2 = k + 1 := by
      rw [hr] at hrec
      simpa using hrec
    obtain ⟨bs, n⟩ := r
    simp only at hr2
    subst hr2
    have hlt : ¬(p + (k + 1) ≤ p) := by omega
    simp [v1Aux, hparse p, hne, hlt, hr]

/-- The selector loop of `_find_search_input` returns normally for every
page behaviour: each probe sits inside its own `try`/`except`. -/
theorem findInputLoop_ok (pg : PageModel) :
    ∀ sels : List (List Char), ∃ v, findInputLoop pg sels = .ok v := by
  intro sels
  induction sels with
  | nil =>
    cases h : pg.roleSearchboxCount with
    | error e => exact ⟨none, by simp [findInputLoop, h]⟩
    | ok c =>
      exact ⟨if c > 0 then some roleSearchboxSel else none, by simp [findInputLoop, h]⟩
  | cons sel rest ih =>
    cases h : probeSelector pg sel with
    | error e => simpa [findInputLoop, h] using ih
    | ok b =>
      cases b with
      | true => exact ⟨some sel, by simp [findInputLoop, h]⟩
      | false => simpa [findInputLoop, h] using ih

/-- `_find_search_input` never lets an exception escape. -/
theorem find_search_input_ok (pg : PageModel) :
    ∃ v, find_search_input pg = .ok v :=
  findInputLoop_ok pg searchSelectors

/-- The guarded `/livro/`-link fallback never lets an exception escape. -/
theorem fallbackLivro_ok (pg : PageModel) : ∃ b, fallbackLivro pg = .ok b := by
  cases h : pg.livroCount with
  | error e => exact ⟨false, by simp [fallbackLivro, h]⟩
  | ok c =>
    cases h2 : fallbackLoop pg (List.range c) with
    | error e => exact ⟨false, by simp [fallbackLivro, h, h2]⟩
    | ok b => exact ⟨b, by simp [fallbackLivro, h, h2]⟩

/-- The dropdown selector loop (and so `_click_dropdown_result`) returns
normally for every page behaviour. -/
theorem clickDropdownLoop_ok (pg : PageModel) :
    ∀ sels : List (List Char), ∃ b, clickDropdownLoop pg sels = .ok b := by
  intro sels
  induction sels with
  | nil => simpa [clickDropdownLoop] using fallbackLivro_ok pg
  | cons sel rest ih =>
    cases h : probeDropdown pg sel with
    | error e => simpa [clickDropdownLoop, h] using ih
    | ok b =>
      cases b with
      | true => exact ⟨true, by simp [clickDropdownLoop, h]⟩
      | false => simpa [clickDropdownLoop, h] using ih

/-- `_click_dropdown_result` never lets an exception escape. -/
theorem click_dropdown_result_ok (pg : PageModel) :
    ∃ b, click_dropdown_result pg = .ok b :=
  clickDropdownLoop_ok pg dropdownSelectors

/-- When the unguarded page calls of `_search_via_dropdown` (navigation,
waiting, and input interaction) all return normally, the function returns
normally whatever the locator probes do. -/
theorem search_via_dropdown_ok (pg : PageModel)
    (h1 : pg.goto = .ok ()) (h2 : ∀ n, pg.waitTimeout n = .ok ())
    (h3 : pg.inputClick = .ok ()) (h4 : pg.inputFill = .ok ())
    (h5 : ∀ q, pg.inputType q = .ok ()) (h6 : pg.waitLoadState = .ok ()) :
    ∀ q, ∃ b, search_via_dropdown pg q = .ok b := by
  intro q
  obtain ⟨v, hv⟩ := find_search_input_ok pg
  cases v with
  | none => exact ⟨false, by simp [search_via_dropdown, h1, h2, hv]⟩
  | some inp =>
    obtain ⟨b, hb⟩ := click_dropdown_result_ok pg
    cases b with
    | false =>
      exact ⟨false, by simp [search_via_dropdown, h1, h2, hv, h3, h4, h5, hb]⟩
    | true =>
      cases hu : strIn "/livro/".toList (pg.urlAfter q) with
      | true =>
        refine ⟨true, ?_⟩
        simp [search_via_dropdown, h1, h2, hv, h3, h4, h5, h6, hb]
        exact hu
      | false =>
        refine ⟨false, ?_⟩
        simp [search_via_dropdown, h1, h2, hv, h3, h4, h5, h6, hb]
        exact hu

/-- A `True` from `_search_via_dropdown` can only arise from landing on a
URL containing the canonical `/livro/` segment. -/
theorem search_via_dropdown_livro (pg : PageModel) (q : List Char) :
    search_via_dropdown pg q = .ok true →
    strIn "/livro/".toList (pg.urlAfter q) = true := by
  intro h
  unfold search_via_dropdown at h
  repeat' split at h
  all_goals simp_all

/-- The row an outbound event concerns, if any. -/
def evRow : Ev → Option Row
  | Ev.locate r => some r
  | Ev.setStat r _ => some r
  | Ev.jitter => none

/-- Every Locate or Status-Set event of the outbound run concerns a row
whose shelf has a truthy mapping. -/
theorem runToSkoob_events_mapped (ops : SyncOps) (rows : List Row) :
    ∀ e : Ev, e ∈ (runToSkoob ops rows).1 →
      ∀ r : Row, evRow e = some r → isMappedRow r = true := by
  intro e hmem r hr
  rw [runToSkoob_trace, List.mem_flatMap] at hmem
  obtain ⟨r2, _, hmem⟩ := hmem
  cases hg : dictGet GOODREADS_TO_SKOOB_SHELF r2.shelf with
  | none => simp [hg] at hmem
  | some t =>
    by_cases ht : t = []
    · simp [hg, ht] at hmem
    · have hmap : isMappedRow r2 = true := by simp [isMappedRow, hg, ht]
      cases hl : ops.locate r2 with
      | error e2 =>
        simp [hg, ht, hl] at hmem
        rcases hmem with rfl | rfl
        · obtain rfl : r2 = r := by simpa [evRow] using hr
          exact hmap
        · simp [evRow] at hr
      | ok b =>
        cases b with
        | false =>
          simp [hg, ht, hl] at hmem
          subst hmem
          obtain rfl : r2 = r := by simpa [evRow] using hr
          exact hmap
        | true =>
          simp [hg, ht, hl] at hmem
          rcases hmem with rfl | rfl | rfl
          · obtain rfl : r2 = r := by simpa [evRow] using hr
            exact hmap
          · obtain rfl : r2 = r := by simpa [evRow] using hr
            exact hmap
          · simp [evRow] at hr

/-- C1: a status absent from the relevant mapping is never processed —
the outbound orchestrator issues no Locate and no Status-Set event for a
row whose shelf `GOODREADS_TO_SKOOB_SHELF.get` misses, the normaliser's
filter keeps only rows whose shelf is a key of that mapping, and the
inbound orchestrator scrapes no shelf whose label
`SKOOB_TO_GOODREADS_SHELF.get` misses; the miss is skipped, never given a
default status. -/
theorem C1_unmapped_skipped :
    (∀ (ops : SyncOps) (rows : List Row) (r : Row) (b : Bool),
        dictGet GOODREADS_TO_SKOOB_SHELF r.shelf = none →
        Ev.locate r ∉ (runToSkoob ops rows).1 ∧
          Ev.setStat r b ∉ (runToSkoob ops rows).1) ∧
    (∀ (rows : List Row) (r : Row),
        r ∈ filterRelevant rows →
        dictGet GOODREADS_TO_SKOOB_SHELF r.shelf ≠ none) ∧
    (∀ (β : Type) (f : Nat → List Char → List Char → List β)
        (u : List Char) (sid : Nat) (lab : List Char),
        (sid, lab) ∈ (runToGoodreads f u).2 →
        dictGet SKOOB_TO_GOODREADS_SHELF lab ≠ none) := by
  refine ⟨?_, ?_, ?_⟩
  · intro ops rows r b hun
    have hnm : isMappedRow r = false := by simp [isMappedRow, hun]
    constructor
    · intro hmem
      have := runToSkoob_events_mapped ops rows (Ev.locate r) hmem r rfl
      rw [hnm] at this
      exact Bool.false_ne_true this
    · intro hmem
      have := runToSkoob_events_mapped ops rows (Ev.setStat r b) hmem r rfl
      rw [hnm] at this
      exact Bool.false_ne_true this
  · intro rows r hmem
    rw [filterRelevant, List.mem_filter] at hmem
    exact dictGet_of_mem_keys _ _ (of_decide_eq_true hmem.2)
  · intro β f u sid lab hmem
    rw [runToGoodreads] at hmem
    by_cases hu : u = []
    · simp [hu] at hmem
    · rw [if_neg hu] at hmem
      exact inboundLoop_scraped_mapped f SKOOB_STATUS_IDS sid lab hmem

/-- Witness for C1: a `to-read` row (unmapped: only `read` is enabled in
the config) is neither located nor status-set and is dropped by the filter
in the sense that only mapped rows pass it, and the `Lido` shelf the
inbound run scrapes is indeed mapped. -/
theorem C1_unmapped_skipped_w :
    (Ev.locate rowUnmapped ∉ (runToSkoob opsAllOk [rowUnmapped, rowRead]).1 ∧
      Ev.setStat rowUnmapped true ∉ (runToSkoob opsAllOk [rowUnmapped, rowRead]).1) ∧
    dictGet GOODREADS_TO_SKOOB_SHELF rowRead.shelf ≠ none ∧
    dictGet SKOOB_TO_GOODREADS_SHELF "Lido".toList ≠ none :=
  ⟨C1_unmapped_skipped.1 opsAllOk [rowUnmapped, rowRead] rowUnmapped true (by decide),
   C1_unmapped_skipped.2.1 [rowRead] rowRead (by decide),
   C1_unmapped_skipped.2.2 Nat scrapeIds ['u'] 1 "Lido".toList (by decide)⟩

/-- C2: the Search-and-Locate cascade queries in the strict order trimmed
identifier (only when non-empty), cleaned-title + author, cleaned title,
issuing exactly the attempts up to and including the first that does not
plainly miss; when the identifier attempt succeeds the result is success
with the identifier as the only issued query — no title+author or
title-only query is issued; and a `_search_via_dropdown` success can only
come from landing on a `/livro/` detail URL. -/
theorem C2_cascade :
    (∀ (f : List Char → Except Unit Bool) (i t a : List Char),
        search_and_open_book f i t a =
          ((match (buildQueries i t a).dropWhile (fun q => isOkFalse (f q)) with
            | [] => Except.ok false
            | q :: _ => f q),
           (buildQueries i t a).takeWhile (fun q => isOkFalse (f q)) ++
             ((buildQueries i t a).dropWhile (fun q => isOkFalse (f q))).take 1)) ∧
    (∀ (f : List Char → Except Unit Bool) (i t a : List Char),
        pyStrip i ≠ [] → f (pyStrip i) = .ok true →
        search_and_open_book f i t a = (.ok true, [pyStrip i])) ∧
    (∀ (pg : PageModel) (q : List Char),
        search_via_dropdown pg q = .ok true →
        strIn "/livro/".toList (pg.urlAfter q) = true) := by
  refine ⟨?_, ?_, search_via_dropdown_livro⟩
  · intro f i t a
    exact attemptQueries_eq f (buildQueries i t a)
  · intro f i t a hne hf
    rw [search_and_open_book, buildQueries, if_neg hne]
    simp [attemptQueries, hf]

/-- Witness for C2: a search behaviour hitting exactly on the trimmed
identifier `"1"` makes the cascade succeed with only that query issued. -/
theorem C2_cascade_w :
    search_and_open_book fIsbnHit ['1'] "T".toList "A".toList = (.ok true, [['1']]) :=
  C2_cascade.2.1 fIsbnHit ['1'] "T".toList "A".toList (by decide) (by decide)

/-- Counterexample to C3: `"A "` has no trailing parenthetical yet is not
returned character-for-character unchanged (`strip()` removes the
whitespace), and `"Foo (a) (b)"` loses more than its single trailing
parenthetical `"(b)"` — the leftmost match removes both. -/
theorem C3_cex :
    (clean_title "A ".toList = "A".toList ∧ clean_title "A ".toList ≠ "A ".toList) ∧
    (clean_title "Foo (a) (b)".toList = "Foo".toList ∧
      clean_title "Foo (a) (b)".toList ≠ "Foo (a)".toList) := by
  refine ⟨⟨by decide, by decide⟩, by decide, by decide⟩

/-- C3 (amended): when the end-anchored parenthetical pattern matches
nowhere, cleaning returns the title stripped of outer whitespace (so
character-for-character unchanged exactly when it has none); when it does
match, cleaning removes everything from the leftmost matching position —
the whitespace run before the parenthetical, and any further
parentheticals it covers, included — and strips the remainder, falling
back to the original title when nothing remains. -/
theorem C3_clean_title :
    (∀ t : List Char, hasTrailingParen t = false →
        clean_title t = (if pyStrip t = [] then t else pyStrip t)) ∧
    (∀ (t : List Char) (i : Nat),
        matchSuffixAt (t.drop i) = true →
        (∀ j, j < i → matchSuffixAt (t.drop j) = false) →
        clean_title t =
          (if pyStrip (t.take i) = [] then t else pyStrip (t.take i))) := by
  constructor
  · intro t h
    rw [clean_title, subParenSuffix_of_no_match t h]
  · intro t i hm hbelow
    rw [clean_title, subParenSuffix_of_match t i hm hbelow]

/-- Witness for C3: on `"Foo (Bar)"` the pattern matches first at index 3,
and cleaning indeed yields the stripped prefix `"Foo"`. -/
theorem C3_clean_title_w :
    clean_title "Foo (Bar)".toList =
      (if pyStrip ("Foo (Bar)".toList.take 3) = [] then "Foo (Bar)".toList
       else pyStrip ("Foo (Bar)".toList.take 3)) :=
  C3_clean_title.2 "Foo (Bar)".toList 3 (by decide) (by decide)

/-- C10: for a non-empty title the cleaner never returns the empty string —
when sub-and-strip leaves nothing, the original title is returned. -/
theorem C10_clean_title_nonempty :
    ∀ t : List Char, t ≠ [] → clean_title t ≠ [] := by
  intro t ht
  rw [clean_title]
  by_cases h : pyStrip (subParenSuffix t) = []
  · rw [if_pos h]
    exact ht
  · rw [if_neg h]
    exact h

/-- Witness for C10: `"(x)"` strips to nothing, so the original title comes
back non-empty. -/
theorem C10_clean_title_nonempty_w :
    "(x)".toList ≠ ([] : List Char) ∧ clean_title "(x)".toList ≠ [] :=
  ⟨by decide, C10_clean_title_nonempty "(x)".toList (by decide)⟩

/-- Counterexample to C4: on a page whose `page.goto` raises (e.g. a
navigation timeout), `_search_and_open_book` propagates the exception to
its caller instead of returning "not found" — the unguarded navigation
and typing calls of `_search_via_dropdown` sit outside every
`try`/`except`. -/
theorem C4_cex :
    (search_and_open_book_pg pgBad [] "T".toList "A".toList).1 = .error () ∧
    (search_and_open_book_pg pgBad [] "T".toList "A".toList).1 ≠ .ok false := by
  exact ⟨by decide, by decide⟩

/-- C4 (amended): the per-selector probing helpers `_find_search_input` and
`_click_dropdown_result` never let an exception escape — every probe is
individually guarded; and if the unguarded calls of
`_search_via_dropdown` (goto, the waits, and the input click/fill/type)
return normally, `_search_and_open_book` returns normally for every
locator behaviour.  Faults there do propagate (see the counterexample)
and are caught one level up, by the orchestrator's `try`/`except`. -/
theorem C4_fault_confinement :
    (∀ pg : PageModel, exOk (find_search_input pg) = true) ∧
    (∀ pg : PageModel, exOk (click_dropdown_result pg) = true) ∧
    (∀ pg : PageModel,
        pg.goto = .ok () → (∀ n, pg.waitTimeout n = .ok ()) →
        pg.inputClick = .ok () → pg.inputFill = .ok () →
        (∀ q, pg.inputType q = .ok ()) → pg.waitLoadState = .ok () →
        ∀ i t a : List Char,
          exOk (search_and_open_book_pg pg i t a).1 = true) := by
  refine ⟨?_, ?_, ?_⟩
  · intro pg
    obtain ⟨v, hv⟩ := find_search_input_ok pg
    simp [hv, exOk]
  · intro pg
    obtain ⟨b, hb⟩ := click_dropdown_result_ok pg
    simp [hb, exOk]
  · intro pg h1 h2 h3 h4 h5 h6 i t a
    rw [search_and_open_book_pg, search_and_open_book]
    have hq : ∀ qs : List (List Char),
        exOk (attemptQueries (search_via_dropdown pg) qs).1 = true := by
      intro qs
      induction qs with
      | nil => rfl
      | cons q rest ih =>
        obtain ⟨b, hb⟩ := search_via_dropdown_ok pg h1 h2 h3 h4 h5 h6 q
        cases b with
        | true => simp [attemptQueries, hb, exOk]
        | false => simpa [attemptQueries, hb] using ih
    exact hq (buildQueries i t a)

/-- Witness for C4: on the all-quiet page every helper returns normally and
the whole cascade reports a plain "not found". -/
theorem C4_fault_confinement_w :
    exOk (find_search_input pgGood) = true ∧
    exOk (click_dropdown_result pgGood) = true ∧
    exOk (search_and_open_book_pg pgGood [] "T".toList "A".toList).1 = true :=
  ⟨C4_fault_confinement.1 pgGood, C4_fault_confinement.2.1 pgGood,
   C4_fault_confinement.2.2 pgGood rfl (fun _ => rfl) rfl rfl (fun _ => rfl) rfl
     [] "T".toList "A".toList⟩

/-- Counterexample to C5: a record whose Locate succeeds and whose
Status-Set returns failure is NOT recorded — the run's trace shows the
failed Status-Set, yet the failure list stays empty. -/
theorem C5_cex :
    runToSkoob opsSetFails [rowRead] =
      ([Ev.locate rowRead, Ev.setStat rowRead false, Ev.jitter], []) ∧
    rowRead ∉ (runToSkoob opsSetFails [rowRead]).2 := by
  exact ⟨by decide, by decide⟩

/-- C5 (amended): the failure list holds exactly the mapped records whose
locate attempt returned `False` or raised; a located record whose
Status-Set returns failure is only logged ("status may already be set")
and never appended. -/
theorem C5_failed_list :
    ∀ (ops : SyncOps) (rows : List Row),
      (runToSkoob ops rows).2 =
        rows.filter (fun r => isMappedRow r && locFailed (ops.locate r)) :=
  fun ops rows => runToSkoob_failed ops rows

/-- Counterexample to C8: with a locate miss on the first record, its
processing is followed immediately by the second record's Locate — the
`continue` in the miss branch skips the jitter, so no jitter delay
separates the two consecutively processed records. -/
theorem C8_cex :
    runToSkoob opsMissFirst [rowRead, rowRead2] =
      ([Ev.locate rowRead, Ev.locate rowRead2, Ev.setStat rowRead2 true, Ev.jitter],
       [rowRead]) := by
  decide

/-- C8 (amended): per processed record the outbound loop emits
`[locate, setStat, jitter]` on a locate hit (whatever `_set_status`
returns) and `[locate, jitter]` on a caught exception, but only
`[locate]` on a locate miss — the jitter is skipped there, so a jitter
delay separates consecutive records except after a locate miss. -/
theorem C8_jitter :
    ∀ (ops : SyncOps) (rows : List Row),
      (runToSkoob ops rows).1 =
        rows.flatMap (fun r =>
          match dictGet GOODREADS_TO_SKOOB_SHELF r.shelf with
          | none => []
          | some t =>
            if t = [] then []
            else
              match ops.locate r with
              | .error _ => [Ev.locate r, Ev.jitter]
              | .ok false => [Ev.locate r]
              | .ok true =>
                [Ev.locate r, Ev.setStat r (ops.setStatus r t), Ev.jitter]) :=
  fun ops rows => runToSkoob_trace ops rows

/-- Counterexample to C7: with an empty identifier, title and author, the
cascade issues the single-space title+author query AND the empty
title-only query — the empty query is sent, not skipped. -/
theorem C7_cex :
    (search_and_open_book fAllMiss [] [] []).2 = [[' '], []] ∧
    [] ∈ (search_and_open_book fAllMiss [] [] []).2 := by
  exact ⟨by decide, by decide⟩

/-- C7 (amended): only the identifier attempt is emptiness-guarded — when
the identifier trims to nothing, every issued query is one of the two
title-derived queries (which are issued even when empty). -/
theorem C7_empty_query :
    ∀ (f : List Char → Except Unit Bool) (i t a : List Char),
      pyStrip i = [] →
      ∀ q ∈ (search_and_open_book f i t a).2,
        q = clean_title t ++ ' ' :: a ∨ q = clean_title t := by
  intro f i t a hi q hq
  rw [search_and_open_book, attemptQueries_eq] at hq
  have hsub : q ∈ buildQueries i t a := by
    rcases List.mem_append.mp hq with h | h
    · exact (List.takeWhile_sublist _).subset h
    · exact (List.dropWhile_sublist _).subset ((List.take_sublist _ _).subset h)
  rw [buildQueries, hi] at hsub
  simpa using hsub

/-- Witness for C7: with a blank identifier and title `"X"`, author `"Y"`,
the issued query `"X"` is one of the two title-derived queries. -/
theorem C7_empty_query_w :
    "X".toList = clean_title "X".toList ++ ' ' :: "Y".toList ∨
      "X".toList = clean_title "X".toList :=
  C7_empty_query fAllMiss [' '] "X".toList "Y".toList (by decide) "X".toList (by decide)

/-- Counterexample to C6: a mocked shelf with one full page followed by an
empty page (a next-page link always present) loads 2 pages, not the 1 the
claim's "exactly N pages are fetched" demands — the empty page must be
fetched to be seen. -/
theorem C6_cex :
    (scrapeShelfAux envOneFull 10 1).map (fun x => x.2) = some 2 ∧
    (scrapeShelfAux envOneFull 10 1).map (fun x => x.2) ≠ some 1 := by
  exact ⟨by decide, by decide⟩

/-- C6 (amended): the shelf loop terminates whenever some page is empty or
lacks a next-page link (fuel past that page suffices); a source with N
full pages, next-page links throughout, and an empty page N+1 is loaded
exactly N+1 times — the N full pages plus the terminating empty one; and
the spec-modelled v1 bookcase paginator with a declared total page count T
and content on every page performs exactly T requests, never touching page
T+1. -/
theorem C6_pagination :
    (∀ (β : Type) (env : ShelfEnv β) (j fuel : Nat),
        (env.cards (1 + j) = [] ∨ env.hasNext (1 + j) = false) → j < fuel →
        (scrapeShelfAux env fuel 1).isSome = true) ∧
    (∀ (β : Type) (env : ShelfEnv β) (N fuel : Nat),
        (∀ i, i < N → env.cards (1 + i) ≠ []) → env.cards (1 + N) = [] →
        (∀ q, env.hasNext q = true) → N < fuel →
        (scrapeShelfAux env fuel 1).map (fun x => x.2) = some (N + 1)) ∧
    (∀ (β : Type) (env : V1Env β) (it : Nat → List (Option β)) (T fuel : Nat),
        (∀ q, env.parse q = some (it q, T)) → (∀ q, it q ≠ []) →
        1 ≤ T → T - 1 < fuel →
        (v1Aux env fuel 1).map (fun x => x.2) = some T) := by
  refine ⟨?_, ?_, ?_⟩
  · intro β env j fuel h hf
    exact scrapeShelfAux_terminates env j 1 fuel h hf
  · intro β env N fuel h1 h2 h3 hf
    exact scrapeShelfAux_count env N 1 fuel h1 h2 h3 hf
  · intro β env it T fuel hp hfull hT hf
    have hd : 1 + (T - 1) = T := by omega
    have := v1Aux_count env it (T - 1) 1 fuel (by rw [hd]; exact hp) hfull hf
    have hd2 : T - 1 + 1 = T := by omega
    rw [hd2] at this
    exact this

/-- Witness for C6: the empty shelf stops at once; the 1-full-page shelf
loads exactly 2 pages; the v1 endpoint declaring 3 pages performs exactly
3 requests. -/
theorem C6_pagination_w :
    (scrapeShelfAux envEmpty 1 1).isSome = true ∧
    (scrapeShelfAux envOneFull 10 1).map (fun x => x.2) = some 2 ∧
    (v1Aux envV1 10 1).map (fun x => x.2) = some 3 :=
  ⟨C6_pagination.1 Nat envEmpty 0 1 (Or.inl rfl) (by decide),
   C6_pagination.2.1 Nat envOneFull 1 10 (by decide) (by decide) (fun _ => rfl)
     (by decide),
   C6_pagination.2.2 Nat envV1 (fun _ => [some 0]) 3 10 (fun _ => rfl)
     (fun _ => List.cons_ne_nil _ _) (by decide) (by decide)⟩

/-- C9: an empty remote-user-identifier makes the inbound run return the
"no user id" failure with no shelf scraped and no export, without
raising; with a user id, the export generator is invoked exactly when the
combined list — the concatenation of the scrapes of the three mapped
shelves — is non-empty, and otherwise "nothing found" is signalled. -/
theorem C9_inbound :
    (∀ (β : Type) (f : Nat → List Char → List Char → List β),
        runToGoodreads f [] = (InOutcome.noUser, [])) ∧
    (∀ (β : Type) (f : Nat → List Char → List Char → List β) (u : List Char),
        u ≠ [] →
        (runToGoodreads f u).1 =
          (if (inboundLoop f SKOOB_STATUS_IDS).1.isEmpty then InOutcome.nothingFound
           else InOutcome.exported (inboundLoop f SKOOB_STATUS_IDS).1) ∧
        (inboundLoop f SKOOB_STATUS_IDS).1 =
          f 1 "Lido".toList "read".toList ++
            (f 2 "Lendo".toList "currently-reading".toList ++
              f 3 "Quero Ler".toList "to-read".toList)) := by
  constructor
  · intro β f
    rw [runToGoodreads, if_pos rfl]
  · intro β f u hu
    refine ⟨?_, inboundLoop_books f⟩
    rw [runToGoodreads, if_neg hu]

/-- Witness for C9: with the id-returning scraper and user `"u"`, the run
exports the combined list `[1, 2, 3]` drawn from the three mapped
shelves. -/
theorem C9_inbound_w :
    (runToGoodreads scrapeIds ['u']).1 =
      (if (inboundLoop scrapeIds SKOOB_STATUS_IDS).1.isEmpty then
        InOutcome.nothingFound
       else InOutcome.exported (inboundLoop scrapeIds SKOOB_STATUS_IDS).1) ∧
    (inboundLoop scrapeIds SKOOB_STATUS_IDS).1 =
      scrapeIds 1 "Lido".toList "read".toList ++
        (scrapeIds 2 "Lendo".toList "currently-reading".toList ++
          scrapeIds 3 "Quero Ler".toList "to-read".toList) :=
  C9_inbound.2 Nat scrapeIds ['u'] (by decide)
